import Mathlib

/-!
Shallow embedding of the gc-filter-worker core: the escalating-cooldown
connection state machine (workers/connection-manager.js), the cooldown
persistence store (utils/cooldown-api.js), the supervisor startup logic
(main.js) and the queue-consumption worker loop (workers/filter-service.js).

Time is modelled as milliseconds since epoch (Nat).  Asynchronous JS methods
become pure functions from the relevant state to the new state together with a
list of externally visible effects, in the order the source performs them.
-/

namespace GCFilter

/-! ## Data model -/

/-- CooldownState as persisted per worker instance (spec section 3; the JSON
object written by CooldownStateManager.save). -/
structure CooldownState where
  lastBanTime : Nat
  totalBanCount : Nat
  cooldownLevel : Nat
deriving Repr, DecidableEq

/-- The static escalation table of backoff durations in minutes, identical in
connection-manager.js (COOLDOWN_LEVELS) and main.js (CONFIG.COOLDOWN_LEVELS). -/
def COOLDOWN_LEVELS : List Nat := [0, 30, 60, 120, 240, 480]

/-- Last valid index of the escalation table (COOLDOWN_LEVELS.length - 1). -/
def maxLevelIndex : Nat := COOLDOWN_LEVELS.length - 1

/-- In-memory state of ConnectionManager (workers/connection-manager.js):
the transient connection-attempt fields set by reset(), plus the three
cooldown fields mirrored from the persisted CooldownState.  The single-shot
connection timer is modelled by whether it is armed. -/
structure ConnMgr where
  gcConnectionAttempts : Nat
  lastGcConnectionTime : Nat
  connectionTimerActive : Bool
  recoveryInProgress : Bool
  lastBanTime : Nat
  totalBanCount : Nat
  cooldownLevel : Nat
deriving Repr, DecidableEq

/-- Externally visible effects performed by ConnectionManager methods, in
source order.  persistCooldown is a saveCooldownState() call,
issueConnectCommand is steamClient.gamesPlayed([730]), scheduleRecoveryIn is a
setTimeout that will run startRecovery, banShutdown is the
performCleanShutdown sequence entered from handleBanDetected. -/
inductive Effect
  | persistCooldown (st : CooldownState)
  | stopProcessing
  | delayMs (ms : Nat)
  | issueConnectCommand
  | startTimer
  | scheduleRecoveryIn (ms : Nat)
  | banShutdown
deriving Repr, DecidableEq

/-- ConnectionManager.clearConnectionTimer. -/
def ConnMgr.clearConnectionTimer (s : ConnMgr) : ConnMgr :=
  { s with connectionTimerActive := false }

/-- ConnectionManager.startConnectionTimer: clears any pending timer and arms
a fresh single-shot timer. -/
def ConnMgr.startConnectionTimer (s : ConnMgr) : ConnMgr :=
  { s with connectionTimerActive := true }

/-- ConnectionManager.reset (connection-manager.js line 50): clears the
attempt counter, last-connection timestamp, timer and recovery flag.  It does
not touch the cooldown fields. -/
def ConnMgr.reset (s : ConnMgr) : ConnMgr :=
  { s with
    gcConnectionAttempts := 0
    lastGcConnectionTime := 0
    connectionTimerActive := false
    recoveryInProgress := false }

/-- The CooldownState snapshot that saveCooldownState persists from the
manager's current fields. -/
def ConnMgr.snapshot (s : ConnMgr) : CooldownState :=
  ⟨s.lastBanTime, s.totalBanCount, s.cooldownLevel⟩

/-- ConnectionManager.handleBanDetected (connection-manager.js lines 198-227):
increment totalBanCount, stamp lastBanTime with the current time, escalate
cooldownLevel clamped to the last table index, persist, then enter the clean
shutdown sequence. -/
def ConnMgr.handleBanDetected (now : Nat) (s : ConnMgr) : ConnMgr × List Effect :=
  let s1 : ConnMgr :=
    { s with
      totalBanCount := s.totalBanCount + 1
      lastBanTime := now
      cooldownLevel := min (s.cooldownLevel + 1) maxLevelIndex }
  (s1, [.persistCooldown s1.snapshot, .banShutdown])

/-- Outcome of a firing of the connection timer. -/
inductive TimeoutOutcome
  | reconnectAttempted
  | banDeclared
deriving Repr, DecidableEq

/-- ConnectionManager.attemptSimpleGcReconnection (lines 174-196).
steamConnected models steamClient.steamID being truthy; raises models an
exception thrown by the steam-client calls inside the try block (the catch
declares a ban). -/
def ConnMgr.attemptSimpleGcReconnection (steamConnected raises : Bool) (now : Nat)
    (s : ConnMgr) : ConnMgr × List Effect × TimeoutOutcome :=
  if steamConnected = false then
    let r := s.handleBanDetected now
    (r.1, r.2, .banDeclared)
  else if raises then
    let r := s.handleBanDetected now
    (r.1, [.stopProcessing, .delayMs 5000] ++ r.2, .banDeclared)
  else
    (s.startConnectionTimer,
      [.stopProcessing, .delayMs 5000, .issueConnectCommand, .startTimer],
      .reconnectAttempted)

/-- ConnectionManager.handleConnectionTimeout (lines 142-154): increment the
attempt counter; on the first timeout try one simple reconnection, otherwise
declare a ban. -/
def ConnMgr.handleConnectionTimeout (steamConnected raises : Bool) (now : Nat)
    (s : ConnMgr) : ConnMgr × List Effect × TimeoutOutcome :=
  let s0 : ConnMgr := { s with gcConnectionAttempts := s.gcConnectionAttempts + 1 }
  if s0.gcConnectionAttempts = 1 then
    s0.attemptSimpleGcReconnection steamConnected raises now
  else
    let r := s0.handleBanDetected now
    (r.1, r.2, .banDeclared)

/-- ConnectionManager.startRecovery (lines 156-172): guarded by the
recoveryInProgress flag; when free, sets the flag, runs the timeout handler
and clears the flag in the finally block.  Returns none when skipped. -/
def ConnMgr.startRecovery (steamConnected raises : Bool) (now : Nat)
    (s : ConnMgr) : ConnMgr × List Effect × Option TimeoutOutcome :=
  if s.recoveryInProgress then (s, [], none)
  else
    let s1 : ConnMgr := { s with recoveryInProgress := true }
    let r := s1.handleConnectionTimeout steamConnected raises now
    ({ r.1 with recoveryInProgress := false }, r.2.1, some r.2.2)

/-- ConnectionManager.onGcConnected (lines 104-117): clear the timer, stamp
the connection time, reset a nonzero cooldown level to 0 and persist, then
reset the transient fields.  NOTE: no call site for this method exists in the
repository; the wired connectedToGC handler in filter-service.js does not
invoke it. -/
def ConnMgr.onGcConnected (now : Nat) (s : ConnMgr) : ConnMgr × List Effect :=
  let s1 := s.clearConnectionTimer
  let s2 : ConnMgr := { s1 with lastGcConnectionTime := now }
  if 0 < s2.cooldownLevel then
    let s3 : ConnMgr := { s2 with cooldownLevel := 0 }
    (s3.reset, [.persistCooldown s3.snapshot])
  else
    (s2.reset, [])

/-- ConnectionManager.onGcDisconnected (lines 119-129): clear the timer and,
when no recovery is in progress, schedule startRecovery after a 5s grace
delay.  NOTE: no call site for this method exists in the repository. -/
def ConnMgr.onGcDisconnected (s : ConnMgr) : ConnMgr × List Effect :=
  let s1 := s.clearConnectionTimer
  if s1.recoveryInProgress then (s1, [])
  else (s1, [.scheduleRecoveryIn 5000])

/-- ConnectionManager.onSteamError (lines 131-140): clear the timer and, when
no recovery is in progress, schedule startRecovery after a 10s grace delay.
NOTE: no call site for this method exists in the repository. -/
def ConnMgr.onSteamError (s : ConnMgr) : ConnMgr × List Effect :=
  let s1 := s.clearConnectionTimer
  if s1.recoveryInProgress then (s1, [])
  else (s1, [.scheduleRecoveryIn 10000])

/-! ## Worker loop (workers/filter-service.js) -/

/-- WorkItem claimed from the filter queue: {id, username}. -/
structure Item where
  id : String
  username : String
deriving Repr, DecidableEq

/-- Failure of one fetchAndCheckProfile attempt (lines 593-648): the bounded
request timeout, the SteamID validation rejections, or a missing profile. -/
inductive FetchError
  | requestTimeout
  | invalidAccountId
  | notIndividualAccount
  | noProfileData
deriving Repr, DecidableEq

/-- Result of processSteamIDWithRetries (lines 559-591): either a successful
fetch carrying the filter verdict, or success:false with the last error (none
when maxRetries was 0 and the loop body never ran). -/
inductive ProcessResult
  | success (passed : Bool)
  | failure (lastError : Option FetchError)
deriving Repr, DecidableEq

/-- Whether the result took the error branch of processQueue. -/
def ProcessResult.isFailure : ProcessResult → Bool
  | .success _ => false
  | .failure _ => true

/-- The retry loop body of processSteamIDWithRetries: attempts run 1, 2, ...
up to maxRetries; the first successful fetch breaks out, otherwise the last
error is kept.  fuel counts the attempts still allowed. -/
def retryGo (fetch : Nat → Except FetchError Bool) :
    Nat → Nat → Option FetchError → ProcessResult
  | 0, _, lastError => .failure lastError
  | fuel + 1, attempt, _ =>
    match fetch attempt with
    | .ok passed => .success passed
    | .error e => retryGo fetch fuel (attempt + 1) (some e)

/-- FilterService.processSteamIDWithRetries (lines 559-591), with the
per-attempt fetch outcome given as a function of the attempt number.  The
best-effort markSteamIdProcessedWithRetries call made afterwards does not
change the returned result and is not modelled. -/
def processSteamIDWithRetries (fetch : Nat → Except FetchError Bool)
    (maxRetries : Nat) : ProcessResult :=
  retryGo fetch maxRetries 1 none

/-- Queue API operations issued by the worker loop, in order. -/
inductive QueueOp
  | addProcessor (id username : String)
  | complete (ids : List String)
  | release (ids : List String)
deriving Repr, DecidableEq

/-- What one iteration of the processQueue while-loop (lines 441-507) does
with a processed item: the queue operations issued and whether an exception
escaped to the loop-level catch (which only logs and delays). -/
structure ItemStep where
  ops : List QueueOp
  errorCaught : Bool
deriving Repr, DecidableEq

/-- Outcome routing of processQueue (lines 464-491).
A passing item is sent to addToProcessorQueue and then completed; but
addToProcessorQueue (lines 547-557) rethrows its request error, which the
loop-level catch absorbs, so when it throws neither complete nor release is
issued.  A fail-criteria item is completed; a transient-error item is
released (completeInFilterQueue and releaseToFilterQueue swallow their own
request errors, so those calls always count as issued). -/
def routeOutcome (item : Item) (r : ProcessResult) (addThrows : Bool) : ItemStep :=
  match r with
  | .success true =>
    if addThrows then
      { ops := [.addProcessor item.id item.username], errorCaught := true }
    else
      { ops := [.addProcessor item.id item.username, .complete [item.id]],
        errorCaught := false }
  | .success false => { ops := [.complete [item.id]], errorCaught := false }
  | .failure _ => { ops := [.release [item.id]], errorCaught := false }

/-- The failureStats update performed in the error branch of processQueue
(lines 487-490): the per-item counter is incremented, other keys unchanged.
failureStats is modelled as a total map defaulting to 0. -/
def updateFailureStats (stats : String → Nat) (r : ProcessResult) (item : Item) :
    String → Nat :=
  if r.isFailure then
    fun k => if k = item.id then stats item.id + 1 else stats k
  else stats

/-- Failures of makeQueueApiRequest (lines 68-127): network error, the 30s
request timeout, a non-200 status or success:false body, or an unparsable
response body. -/
inductive ApiFailure
  | networkError
  | requestTimeout
  | badStatusOrError
  | parseFailure
deriving Repr, DecidableEq

/-- FilterService.claimBatchFromQueue (lines 509-521): on a successful
response return response.items (or [] when the field is absent); any request
error is caught, logged and converted to the empty batch. -/
def claimBatchFromQueue (resp : Except ApiFailure (Option (List Item))) : List Item :=
  match resp with
  | .ok (some items) => items
  | .ok none => []
  | .error _ => []

/-- What the claim branch of the processQueue loop (lines 445-454) does next
when the local batch is empty. -/
inductive LoopStep
  | sleepAndRetry (ms : Nat)
  | startBatch (items : List Item)
deriving Repr, DecidableEq

/-- The claim branch of processQueue: claim a batch; an empty (or failed)
claim sleeps EMPTY_QUEUE_DELAY and retries, otherwise the batch is adopted. -/
def processQueueClaimStep (emptyQueueDelay : Nat)
    (resp : Except ApiFailure (Option (List Item))) : LoopStep :=
  match claimBatchFromQueue resp with
  | [] => .sleepAndRetry emptyQueueDelay
  | item :: rest => .startBatch (item :: rest)

/-! ## FilterService.stop (lines 728-773)

stop() is a synchronous method.  Its two releaseToFilterQueue calls are made
without await and with a .catch that only logs, so the HTTP release requests
are issued before stop returns while their settlement (the items actually
being back in the source queue, or the failure) happens strictly after the
return, on a later event-loop turn. -/

/-- Fields of FilterService relevant to stop(). -/
structure FilterStopState where
  running : Bool
  currentBatch : List Item
  currentItem : Option Item
  steamLoggedIn : Bool
deriving Repr, DecidableEq

/-- Events of a stop() run, in execution order.  releaseRequested marks the
fire-and-forget HTTP request being issued; stopReturned marks stop()
returning to its caller; releaseSettled marks the asynchronous completion of
a release request (ok = false is a failure that the attached catch merely
logs). -/
inductive StopEvent
  | setRunningFalse
  | setProcessingInactive
  | clearConnTimer
  | releaseRequested (ids : List String)
  | steamLogOff
  | stopReturned
  | releaseSettled (ids : List String) (ok : Bool)
deriving Repr, DecidableEq

/-- The synchronous body of stop() (lines 733-772), in execution order: flags
cleared, connection-manager cleanup, the two fire-and-forget release requests
issued when there is something to release, the steam logoff. -/
def stopPrefix (s : FilterStopState) : List StopEvent :=
  [.setRunningFalse, .setProcessingInactive, .clearConnTimer]
  ++ (if s.currentBatch.isEmpty then []
      else [.releaseRequested (s.currentBatch.map Item.id)])
  ++ (match s.currentItem with
      | some it => [.releaseRequested [it.id]]
      | none => [])
  ++ (if s.steamLoggedIn then [.steamLogOff] else [])

/-- The asynchronous settlements of the release requests, delivered on later
event-loop turns, i.e. after stop() has returned.  A failed settlement
(ok = false) is absorbed by the attached catch, which only logs. -/
def stopSuffix (s : FilterStopState) (batchOk currentOk : Bool) : List StopEvent :=
  (if s.currentBatch.isEmpty then []
   else [.releaseSettled (s.currentBatch.map Item.id) batchOk])
  ++ (match s.currentItem with
      | some it => [.releaseSettled [it.id] currentOk]
      | none => [])

/-- The event trace of FilterService.stop on state s, when the batch release
request settles with batchOk and the current-item release request settles
with currentOk.  An already-stopped service returns immediately. -/
def stopTrace (s : FilterStopState) (batchOk currentOk : Bool) : List StopEvent :=
  if s.running = false then []
  else stopPrefix s ++ [.stopReturned] ++ stopSuffix s batchOk currentOk

/-- The part of a stop trace executed before stop() returns. -/
def beforeReturn (tr : List StopEvent) : List StopEvent :=
  tr.takeWhile (fun e => e ≠ .stopReturned)

/-! ## Cooldown store (utils/cooldown-api.js) -/

/-- Remote (Redis-backed cooldown API) verbs used by CooldownStateManager. -/
inductive RemoteVerb
  | get
  | post
  | del
deriving Repr, DecidableEq

/-- Local fallback-file accesses performed by CooldownStateManager. -/
inductive FileAccess
  | readFile
  | writeFile
  | deleteFile
deriving Repr, DecidableEq

/-- The one piece of per-instance store state: the useRedis flag, true at
construction. -/
structure StoreState where
  useRedis : Bool
deriving Repr, DecidableEq

/-- The three operations of CooldownStateManager. -/
inductive StoreOp
  | load
  | save
  | clear
deriving Repr, DecidableEq

/-- One CooldownStateManager operation, with remoteFails telling whether the
remote call fails when one is attempted.  Returns the new store state, the
remote verbs attempted and the file accesses performed.
load (lines 105-146): remote GET first; on failure disable useRedis and fall
back to reading the file; with useRedis already false only the file is read.
save (lines 151-186): remote POST first; on failure disable useRedis; the
file is always written as a write-through backup.
clear (lines 191-216): remote DELETE first; a failure is logged but — unlike
load and save — does not clear the useRedis flag; the file is then deleted. -/
def storeStep : StoreState → StoreOp → Bool → StoreState × List RemoteVerb × List FileAccess
  | ⟨true⟩, .load, false => (⟨true⟩, [.get], [])
  | ⟨true⟩, .load, true => (⟨false⟩, [.get], [.readFile])
  | ⟨false⟩, .load, _ => (⟨false⟩, [], [.readFile])
  | ⟨true⟩, .save, false => (⟨true⟩, [.post], [.writeFile])
  | ⟨true⟩, .save, true => (⟨false⟩, [.post], [.writeFile])
  | ⟨false⟩, .save, _ => (⟨false⟩, [], [.writeFile])
  | ⟨true⟩, .clear, false => (⟨true⟩, [.del], [.deleteFile])
  | ⟨true⟩, .clear, true => (⟨true⟩, [.del], [.deleteFile])
  | ⟨false⟩, .clear, _ => (⟨false⟩, [], [.deleteFile])

/-- Run a sequence of store operations (each paired with whether its remote
call, if attempted, fails), collecting for each operation the remote verbs
attempted and the file accesses performed. -/
def runStore : StoreState → List (StoreOp × Bool) → List (List RemoteVerb × List FileAccess)
  | _, [] => []
  | s, (op, f) :: rest =>
    let r := storeStep s op f
    (r.2.1, r.2.2) :: runStore r.1 rest

/-- The file accesses an operation performs when the store is in file-only
mode (useRedis = false). -/
def fileOnlyAccess : StoreOp → List FileAccess
  | .load => [.readFile]
  | .save => [.writeFile]
  | .clear => [.deleteFile]

/-! ## Supervisor (main.js) -/

/-- main.js calculateCooldownEndTime (lines 80-87): 0 when no ban is recorded
or the level is 0, otherwise lastBanTime plus the level's minutes in ms. -/
def calculateCooldownEndTime (st : CooldownState) : Nat :=
  if st.lastBanTime = 0 ∨ st.cooldownLevel = 0 then 0
  else st.lastBanTime + (COOLDOWN_LEVELS.getD st.cooldownLevel 0) * 60 * 1000

/-- main.js getRemainingCooldownTime (lines 89-92): Math.max(0, end - now);
Nat subtraction already clamps at 0. -/
def getRemainingCooldownTime (now : Nat) (st : CooldownState) : Nat :=
  calculateCooldownEndTime st - now

/-- The three startup paths of GCFilterWorker.checkAndStartFilterService
(main.js lines 208-254). -/
inductive SupervisorDecision
  | clearStateAndStart
  | scheduleRestart (delayMs : Nat)
  | startNow
deriving Repr, DecidableEq

/-- GCFilterWorker.checkAndStartFilterService: manual restart clears state
and starts; remaining cooldown defers the start by exactly the remaining
time via scheduleFilterRestart(remainingCooldown); otherwise start now. -/
def checkAndStartFilterService (manualRestart : Bool) (now : Nat)
    (st : CooldownState) : SupervisorDecision :=
  if manualRestart then .clearStateAndStart
  else if 0 < getRemainingCooldownTime now st then
    .scheduleRestart (getRemainingCooldownTime now st)
  else .startNow

/-- Result of running a JS callback or handler to completion. -/
inductive JsCallResult
  | workerStarted
  | handlerCompleted
  | thrown (msg : String)
deriving Repr, DecidableEq

/-- The function names defined in the module scope of main.js. -/
def mainModuleFunctions : List String :=
  ["initializeEnvironment", "delay", "logToFile", "loadCooldownStateAsync",
   "calculateCooldownEndTime", "getRemainingCooldownTime", "getCooldownLevelInfo"]

/-- The callback of the deferred-restart timer armed by
GCFilterWorker.scheduleFilterRestart (main.js lines 319-324).  Its first
statement evaluates the free identifier loadCooldownState; main.js defines
only loadCooldownStateAsync, so the lookup fails with a ReferenceError and
the later this.startFilterWorker() call is never reached. -/
def restartTimerCallback : JsCallResult :=
  if mainModuleFunctions.contains "loadCooldownState" then .workerStarted
  else .thrown "ReferenceError: loadCooldownState is not defined"

/-! ## Capability event handlers as wired (filter-service.js lines 316-385) -/

/-- FilterService fields touched by the wired capability handlers. -/
structure FilterConnState where
  mgr : ConnMgr
  processingActive : Bool
deriving Repr, DecidableEq

/-- The connectedToGC handler as wired (filter-service.js lines 336-344): it
calls connectionManager.clearConnectionTimer() and connectionManager.reset()
and starts processing if idle.  It performs no cooldown-level change and no
persistence (it never calls onGcConnected). -/
def connectedToGCHandler (s : FilterConnState) : FilterConnState × List Effect :=
  let m := s.mgr.clearConnectionTimer.reset
  ({ mgr := m, processingActive := true }, [])

/-- The disconnectedFromGC handler as wired (filter-service.js lines
346-349): it only sets processingActive to false; it schedules no recovery
and never calls connectionManager.onGcDisconnected. -/
def disconnectedFromGCHandler (s : FilterConnState) : FilterConnState × List Effect :=
  ({ s with processingActive := false }, [])

/-- The method names defined on the ConnectionManager class
(connection-manager.js). -/
def connectionManagerMethods : List String :=
  ["reset", "loadCooldownState", "saveCooldownState", "startConnectionTimer",
   "clearConnectionTimer", "onGcConnected", "onGcDisconnected", "onSteamError",
   "handleConnectionTimeout", "startRecovery", "attemptSimpleGcReconnection",
   "handleBanDetected", "performCleanShutdown", "delay", "getCooldownInfo",
   "getStatus", "resetCooldown", "setCooldownLevel"]

/-- The steamClient error handler as wired (filter-service.js lines
351-354): it calls this.connectionManager.handleConnectionError(); no method
of that name exists on ConnectionManager, so the call throws a TypeError and
no recovery is begun. -/
def steamErrorHandler : JsCallResult :=
  if connectionManagerMethods.contains "handleConnectionError" then .handlerCompleted
  else .thrown "TypeError: this.connectionManager.handleConnectionError is not a function"

/-! ## Concrete sample states used by witnesses and counterexamples -/

/-- A manager at cooldown level 2 with 4 recorded bans, waiting on its timer. -/
def banSample : ConnMgr := ⟨0, 0, true, false, 7, 4, 2⟩

/-- A manager with no timeouts yet this session (attempt counter 0). -/
def timeoutSample0 : ConnMgr := ⟨0, 0, true, false, 0, 0, 2⟩

/-- A manager that already absorbed one timeout (attempt counter 1). -/
def timeoutSample1 : ConnMgr := ⟨1, 0, true, false, 0, 0, 2⟩

/-- FilterService connection state at cooldown level 2, idle, used to run the
connectedToGC handler. -/
def connSample : FilterConnState := ⟨⟨3, 0, true, false, 5000, 4, 2⟩, false⟩

/-- FilterService connection state during active processing, used to run the
disconnect and error handlers. -/
def disconnSample : FilterConnState := ⟨⟨0, 0, true, false, 0, 0, 0⟩, true⟩

/-- A running service holding one claimed-but-unprocessed item and one
in-flight item at the moment stop() is called. -/
def stopSample : FilterStopState := ⟨true, [⟨"A", "u"⟩], some ⟨"B", "v"⟩, true⟩

/-- A sample work item. -/
def itemSample : Item := ⟨"76561198000000001", "alice"⟩

/-! ## Theorems -/

/-- Claim C1: for every escalation level L in [0, max], a ban detected at
level L increments totalBanCount by one, stamps lastBanTime with the current
time, and sets cooldownLevel to min(L+1, max); the resulting level never
exceeds the last index of the escalation table. -/
theorem C1_ban_escalates_and_clamps (s : ConnMgr) (now : Nat)
    (h : s.cooldownLevel ≤ maxLevelIndex) :
    (s.handleBanDetected now).1.totalBanCount = s.totalBanCount + 1 ∧
    (s.handleBanDetected now).1.lastBanTime = now ∧
    (s.handleBanDetected now).1.cooldownLevel = min (s.cooldownLevel + 1) maxLevelIndex ∧
    (s.handleBanDetected now).1.cooldownLevel ≤ maxLevelIndex := by
  refine ⟨rfl, rfl, rfl, ?_⟩
  have hlev : (s.handleBanDetected now).1.cooldownLevel =
      min (s.cooldownLevel + 1) maxLevelIndex := rfl
  rw [hlev]
  exact min_le_right _ _

/-- Witness for C1 at level 2: the level moves to 3 and stays within the
table. -/
theorem C1_ban_escalates_and_clamps_witness :
    banSample.cooldownLevel ≤ maxLevelIndex ∧
    ((banSample.handleBanDetected 1234).1.totalBanCount = banSample.totalBanCount + 1 ∧
     (banSample.handleBanDetected 1234).1.lastBanTime = 1234 ∧
     (banSample.handleBanDetected 1234).1.cooldownLevel =
       min (banSample.cooldownLevel + 1) maxLevelIndex ∧
     (banSample.handleBanDetected 1234).1.cooldownLevel ≤ maxLevelIndex) :=
  ⟨by decide, C1_ban_escalates_and_clamps banSample 1234 (by decide)⟩

/-- Claim C8: on the first firing of the connection timer (the attempt
counter becomes 1), with the steam session alive and no exception, exactly
one lightweight reconnection is performed (connect command re-issued, fixed
delay, timer restarted) without escalating the cooldown level or the ban
count; on any subsequent timeout, or when the lightweight reconnection fails
(steam session gone or an exception), a ban is declared. -/
theorem C8_first_timeout_reconnects_then_ban (s : ConnMgr)
    (steamConnected raises : Bool) (now : Nat) :
    (s.gcConnectionAttempts = 0 → steamConnected = true → raises = false →
      (s.handleConnectionTimeout steamConnected raises now).2.2 =
        TimeoutOutcome.reconnectAttempted ∧
      (s.handleConnectionTimeout steamConnected raises now).2.1 =
        [.stopProcessing, .delayMs 5000, .issueConnectCommand, .startTimer] ∧
      (s.handleConnectionTimeout steamConnected raises now).1.cooldownLevel =
        s.cooldownLevel ∧
      (s.handleConnectionTimeout steamConnected raises now).1.totalBanCount =
        s.totalBanCount ∧
      (s.handleConnectionTimeout steamConnected raises now).1.gcConnectionAttempts = 1) ∧
    (s.gcConnectionAttempts = 0 → (steamConnected = false ∨ raises = true) →
      (s.handleConnectionTimeout steamConnected raises now).2.2 =
        TimeoutOutcome.banDeclared) ∧
    (1 ≤ s.gcConnectionAttempts →
      (s.handleConnectionTimeout steamConnected raises now).2.2 =
        TimeoutOutcome.banDeclared) := by
  refine ⟨?_, ?_, ?_⟩
  · intro h0 hc hr
    subst hc; subst hr
    simp [ConnMgr.handleConnectionTimeout, h0, ConnMgr.attemptSimpleGcReconnection,
      ConnMgr.startConnectionTimer]
  · intro h0 hor
    rcases hor with hc | hr
    · subst hc
      simp [ConnMgr.handleConnectionTimeout, h0, ConnMgr.attemptSimpleGcReconnection]
    · subst hr
      cases steamConnected <;>
        simp [ConnMgr.handleConnectionTimeout, h0, ConnMgr.attemptSimpleGcReconnection]
  · intro h
    have hne : ¬ (s.gcConnectionAttempts + 1 = 1) := by omega
    simp [ConnMgr.handleConnectionTimeout, hne]

/-- Witness for C8: a fresh session reconnects once without escalation; a
dead steam session on the first timeout and a second timeout both declare a
ban. -/
theorem C8_first_timeout_reconnects_then_ban_witness :
    ((timeoutSample0.handleConnectionTimeout true false 777).2.2 =
        TimeoutOutcome.reconnectAttempted ∧
     (timeoutSample0.handleConnectionTimeout true false 777).2.1 =
        [.stopProcessing, .delayMs 5000, .issueConnectCommand, .startTimer] ∧
     (timeoutSample0.handleConnectionTimeout true false 777).1.cooldownLevel =
        timeoutSample0.cooldownLevel ∧
     (timeoutSample0.handleConnectionTimeout true false 777).1.totalBanCount =
        timeoutSample0.totalBanCount ∧
     (timeoutSample0.handleConnectionTimeout true false 777).1.gcConnectionAttempts = 1) ∧
    (timeoutSample0.handleConnectionTimeout false false 777).2.2 =
      TimeoutOutcome.banDeclared ∧
    (timeoutSample1.handleConnectionTimeout true false 777).2.2 =
      TimeoutOutcome.banDeclared :=
  ⟨(C8_first_timeout_reconnects_then_ban timeoutSample0 true false 777).1 rfl rfl rfl,
   (C8_first_timeout_reconnects_then_ban timeoutSample0 false false 777).2.1 rfl (Or.inl rfl),
   (C8_first_timeout_reconnects_then_ban timeoutSample1 true false 777).2.2 (by decide)⟩

/-- Claim C10: every claim-request error makes claimBatchFromQueue return the
empty list, and the processing loop then takes the same sleep-and-retry step
as for a genuinely drained queue (an ok response with no items). -/
theorem C10_claim_failure_treated_as_drained_queue (e : ApiFailure) (ms : Nat) :
    claimBatchFromQueue (Except.error e) = [] ∧
    processQueueClaimStep ms (Except.error e) = LoopStep.sleepAndRetry ms ∧
    processQueueClaimStep ms (Except.error e) =
      processQueueClaimStep ms (Except.ok (some [])) ∧
    processQueueClaimStep ms (Except.error e) =
      processQueueClaimStep ms (Except.ok none) :=
  ⟨rfl, rfl, rfl, rfl⟩

/-- When every attempt in the retry window fails, the retry loop ends in the
failure result. -/
theorem retryGo_isFailure_of_all_fail (fetch : Nat → Except FetchError Bool) :
    ∀ (fuel attempt : Nat) (lastE : Option FetchError),
      (∀ i, attempt ≤ i → i < attempt + fuel → ∃ err, fetch i = Except.error err) →
      (retryGo fetch fuel attempt lastE).isFailure = true := by
  intro fuel
  induction fuel with
  | zero => intro attempt lastE _; rfl
  | succ n ih =>
    intro attempt lastE h
    obtain ⟨err, herr⟩ := h attempt (Nat.le_refl _) (by omega)
    simp only [retryGo, herr]
    exact ih (attempt + 1) (some err) (fun i h1 h2 => h i (by omega) (by omega))

/-- Claim C7: for an item whose per-attempt fetch fails on all maxRetries
attempts, the outcome is transient-error: the worker issues exactly one
release for the item (and no complete), and the per-item failure counter is
incremented. -/
theorem C7_all_attempts_fail_item_released (fetch : Nat → Except FetchError Bool)
    (maxRetries : Nat) (item : Item) (addThrows : Bool) (stats : String → Nat)
    (h : ∀ i, 1 ≤ i → i ≤ maxRetries → ∃ err, fetch i = Except.error err) :
    (processSteamIDWithRetries fetch maxRetries).isFailure = true ∧
    (routeOutcome item (processSteamIDWithRetries fetch maxRetries) addThrows).ops =
      [QueueOp.release [item.id]] ∧
    updateFailureStats stats (processSteamIDWithRetries fetch maxRetries) item item.id =
      stats item.id + 1 := by
  have hf : (processSteamIDWithRetries fetch maxRetries).isFailure = true :=
    retryGo_isFailure_of_all_fail fetch maxRetries 1 none
      (fun i h1 h2 => h i h1 (by omega))
  refine ⟨hf, ?_, ?_⟩
  · cases hr : processSteamIDWithRetries fetch maxRetries with
    | success p => rw [hr] at hf; simp [ProcessResult.isFailure] at hf
    | failure e => simp [routeOutcome]
  · simp [updateFailureStats, hf]

/-- Witness for C7: three consecutive fetch timeouts with maxRetries = 3
leave the item released, not completed, and its failure counter at 1. -/
theorem C7_all_attempts_fail_item_released_witness :
    (processSteamIDWithRetries (fun _ => Except.error FetchError.requestTimeout) 3).isFailure
      = true ∧
    (routeOutcome itemSample
      (processSteamIDWithRetries (fun _ => Except.error FetchError.requestTimeout) 3)
      false).ops = [QueueOp.release [itemSample.id]] ∧
    updateFailureStats (fun _ => 0)
      (processSteamIDWithRetries (fun _ => Except.error FetchError.requestTimeout) 3)
      itemSample itemSample.id = 0 + 1 :=
  C7_all_attempts_fail_item_released (fun _ => Except.error FetchError.requestTimeout)
    3 itemSample false (fun _ => 0)
    (fun _ _ _ => ⟨FetchError.requestTimeout, rfl⟩)

/-- Claim C4 (amended): when the downstream enqueue does not throw, each
processed item gets exactly one of complete or release, never both: a
passing item is enqueued downstream then completed, a fail-criteria item is
completed, a transient-error item is released, and the loop-level catch is
not involved.  (As stated the claim fails when the downstream enqueue
throws; see the counterexample.) -/
theorem C4_exactly_one_outcome_when_add_succeeds (item : Item) (r : ProcessResult) :
    ((QueueOp.complete [item.id] ∈ (routeOutcome item r false).ops ∧
      QueueOp.release [item.id] ∉ (routeOutcome item r false).ops) ∨
     (QueueOp.complete [item.id] ∉ (routeOutcome item r false).ops ∧
      QueueOp.release [item.id] ∈ (routeOutcome item r false).ops)) ∧
    (r = ProcessResult.success true → (routeOutcome item r false).ops =
      [QueueOp.addProcessor item.id item.username, QueueOp.complete [item.id]]) ∧
    (r = ProcessResult.success false → (routeOutcome item r false).ops =
      [QueueOp.complete [item.id]]) ∧
    (r.isFailure = true → (routeOutcome item r false).ops =
      [QueueOp.release [item.id]]) ∧
    (routeOutcome item r false).errorCaught = false := by
  cases r with
  | success p =>
    cases p <;>
      exact ⟨Or.inl (by simp [routeOutcome]), by simp [routeOutcome],
        by simp [routeOutcome], by simp [routeOutcome, ProcessResult.isFailure],
        by simp [routeOutcome]⟩
  | failure e =>
    exact ⟨Or.inr (by simp [routeOutcome]), by simp [routeOutcome],
      by simp [routeOutcome], by simp [routeOutcome], by simp [routeOutcome]⟩

/-- Witness for C4: the three outcome classes at a concrete item. -/
theorem C4_exactly_one_outcome_when_add_succeeds_witness :
    (routeOutcome ⟨"A", "u"⟩ (ProcessResult.success true) false).ops =
      [QueueOp.addProcessor "A" "u", QueueOp.complete ["A"]] ∧
    (routeOutcome ⟨"A", "u"⟩ (ProcessResult.success false) false).ops =
      [QueueOp.complete ["A"]] ∧
    (routeOutcome ⟨"A", "u"⟩ (ProcessResult.failure none) false).ops =
      [QueueOp.release ["A"]] :=
  ⟨(C4_exactly_one_outcome_when_add_succeeds ⟨"A", "u"⟩ (ProcessResult.success true)).2.1 rfl,
   (C4_exactly_one_outcome_when_add_succeeds ⟨"A", "u"⟩ (ProcessResult.success false)).2.2.1 rfl,
   (C4_exactly_one_outcome_when_add_succeeds ⟨"A", "u"⟩ (ProcessResult.failure none)).2.2.2.1 rfl⟩

/-- Counterexample to C4 as stated: a passing item whose downstream enqueue
throws receives neither complete nor release — the rethrown request error is
absorbed by the loop-level catch and the loop proceeds to the next item. -/
theorem C4_neither_outcome_when_add_throws :
    (routeOutcome ⟨"A", "u"⟩ (ProcessResult.success true) true).ops =
      [QueueOp.addProcessor "A" "u"] ∧
    QueueOp.complete ["A"] ∉ (routeOutcome ⟨"A", "u"⟩ (ProcessResult.success true) true).ops ∧
    QueueOp.release ["A"] ∉ (routeOutcome ⟨"A", "u"⟩ (ProcessResult.success true) true).ops ∧
    (routeOutcome ⟨"A", "u"⟩ (ProcessResult.success true) true).errorCaught = true := by
  decide

/-- Every event of the synchronous part of stop() is one of the five
synchronous actions; in particular none is the return marker. -/
theorem mem_stopPrefix_ne_return (s : FilterStopState) (e : StopEvent)
    (he : e ∈ stopPrefix s) : e ≠ StopEvent.stopReturned := by
  intro hEq
  subst hEq
  cases hcb : s.currentBatch.isEmpty <;>
    cases hit : s.currentItem <;>
      cases hsl : s.steamLoggedIn <;>
        simp [stopPrefix, hcb, hit, hsl] at he

/-- No settlement event occurs in the synchronous part of stop(). -/
theorem mem_stopPrefix_no_settled (s : FilterStopState) (ids : List String)
    (ok : Bool) : StopEvent.releaseSettled ids ok ∉ stopPrefix s := by
  intro he
  cases hcb : s.currentBatch.isEmpty <;>
    cases hit : s.currentItem <;>
      cases hsl : s.steamLoggedIn <;>
        simp [stopPrefix, hcb, hit, hsl] at he

/-- takeWhile up to the first return marker recovers exactly the part of the
trace before it. -/
theorem takeWhile_until_return (l rest : List StopEvent)
    (h : ∀ e ∈ l, e ≠ StopEvent.stopReturned) :
    (l ++ StopEvent.stopReturned :: rest).takeWhile
      (fun e => e ≠ StopEvent.stopReturned) = l := by
  induction l with
  | nil => simp
  | cons a as ih =>
    have ha : a ≠ StopEvent.stopReturned := h a (List.mem_cons_self a as)
    have hp : (fun e => decide (e ≠ StopEvent.stopReturned)) a = true := by
      simp [ha]
    simp only [List.cons_append, List.takeWhile_cons, hp, if_true]
    rw [ih (fun e he => h e (List.mem_cons_of_mem a he))]

/-- Claim C5 (amended): stop() issues the release requests for the whole
remaining batch and the in-flight item before it returns, but it does not
await them: no settlement (the items actually being back in the queue, or
the failure of the request) occurs before the return, and a failed release
is only logged — the release is initiated-before-return and best-effort,
not a completed-before-return hard guarantee. -/
theorem C5_stop_initiates_releases_before_return (s : FilterStopState)
    (batchOk currentOk : Bool) (hrun : s.running = true) :
    beforeReturn (stopTrace s batchOk currentOk) = stopPrefix s ∧
    (s.currentBatch.isEmpty = false →
      StopEvent.releaseRequested (s.currentBatch.map Item.id) ∈
        beforeReturn (stopTrace s batchOk currentOk)) ∧
    (∀ it, s.currentItem = some it →
      StopEvent.releaseRequested [it.id] ∈
        beforeReturn (stopTrace s batchOk currentOk)) ∧
    (∀ ids ok, StopEvent.releaseSettled ids ok ∉
      beforeReturn (stopTrace s batchOk currentOk)) ∧
    StopEvent.stopReturned ∈ stopTrace s batchOk currentOk := by
  have hpre : beforeReturn (stopTrace s batchOk currentOk) = stopPrefix s := by
    unfold beforeReturn stopTrace
    rw [hrun]
    simp only [Bool.true_eq_false, if_false, List.append_assoc, List.singleton_append]
    exact takeWhile_until_return _ _ (mem_stopPrefix_ne_return s)
  refine ⟨hpre, ?_, ?_, ?_, ?_⟩
  · intro hb
    rw [hpre]
    simp [stopPrefix, hb]
  · intro it hit
    rw [hpre]
    simp [stopPrefix, hit]
  · intro ids ok h
    rw [hpre] at h
    exact mem_stopPrefix_no_settled s ids ok h
  · unfold stopTrace
    rw [hrun]
    simp

/-- Witness for C5: with one batch item A and in-flight item B, both release
requests are issued before the return and no settlement precedes it. -/
theorem C5_stop_initiates_releases_before_return_witness :
    StopEvent.releaseRequested ["A"] ∈ beforeReturn (stopTrace stopSample true true) ∧
    StopEvent.releaseRequested ["B"] ∈ beforeReturn (stopTrace stopSample true true) ∧
    StopEvent.releaseSettled ["A"] true ∉ beforeReturn (stopTrace stopSample true true) ∧
    StopEvent.stopReturned ∈ stopTrace stopSample true true := by
  have h := C5_stop_initiates_releases_before_return stopSample true true rfl
  exact ⟨h.2.1 rfl, h.2.2.1 ⟨"B", "v"⟩ rfl, h.2.2.2.1 ["A"] true, h.2.2.2.2⟩

/-- Counterexample to C5 as stated: even when both release requests succeed,
no item is back in the queue (settled) before stop() returns; and when both
requests fail, stop() has still returned normally with the failures only
settled — and merely logged — afterwards.  The release is therefore not a
completed-before-return hard guarantee. -/
theorem C5_settlement_only_after_return :
    beforeReturn (stopTrace stopSample true true) =
      [StopEvent.setRunningFalse, StopEvent.setProcessingInactive,
       StopEvent.clearConnTimer, StopEvent.releaseRequested ["A"],
       StopEvent.releaseRequested ["B"], StopEvent.steamLogOff] ∧
    StopEvent.releaseSettled ["A"] true ∉ beforeReturn (stopTrace stopSample true true) ∧
    StopEvent.releaseSettled ["B"] true ∉ beforeReturn (stopTrace stopSample true true) ∧
    StopEvent.stopReturned ∈ stopTrace stopSample false false ∧
    StopEvent.releaseSettled ["A"] false ∈ stopTrace stopSample false false ∧
    StopEvent.releaseSettled ["B"] false ∈ stopTrace stopSample false false := by
  decide

/-- In file-only mode (useRedis already false) no operation ever attempts a
remote call and each uses only the local file. -/
theorem runStore_fileOnly (l : List (StoreOp × Bool)) :
    runStore ⟨false⟩ l = l.map (fun p => (([] : List RemoteVerb), fileOnlyAccess p.1)) := by
  induction l with
  | nil => rfl
  | cons hd tl ih =>
    obtain ⟨op, f⟩ := hd
    cases op <;> simp [runStore, storeStep, fileOnlyAccess, ih]

/-- Claim C6 (amended): after a remote load failure or a remote save failure,
every subsequent load, save and clear in the same store instance makes no
remote call and uses only the local file; in particular after one failed
remote load all later saves go to the file only.  (A failed remote clear,
however, does not disable remote access; see the counterexample.) -/
theorem C6_remote_disabled_after_load_or_save_failure (rest : List (StoreOp × Bool)) :
    runStore ⟨true⟩ ((StoreOp.load, true) :: rest) =
      ([RemoteVerb.get], [FileAccess.readFile]) ::
        rest.map (fun p => (([] : List RemoteVerb), fileOnlyAccess p.1)) ∧
    runStore ⟨true⟩ ((StoreOp.save, true) :: rest) =
      ([RemoteVerb.post], [FileAccess.writeFile]) ::
        rest.map (fun p => (([] : List RemoteVerb), fileOnlyAccess p.1)) := by
  constructor <;> simp [runStore, storeStep, runStore_fileOnly]

/-- Counterexample to C6 as stated: after a failed remote clear the instance
still attempts a remote call — the next load issues a remote GET, so a
single remote failure does not always disable remote access. -/
theorem C6_clear_failure_keeps_remote_enabled :
    runStore ⟨true⟩ [(StoreOp.clear, true), (StoreOp.load, false)] =
      [([RemoteVerb.del], [FileAccess.deleteFile]), ([RemoteVerb.get], [])] ∧
    ((runStore ⟨true⟩ [(StoreOp.clear, true), (StoreOp.load, false)]).getD 1
      ([], [])).1 ≠ ([] : List RemoteVerb) := by
  decide

/-- Claim C2 is violated by the code: the wired connectedToGC handler clears
the timer and resets the attempt counter but leaves a nonzero cooldownLevel
untouched and persists nothing, while the dead ConnectionManager.onGcConnected
method (never invoked) would have reset the level to 0 and persisted it. -/
theorem C2_connected_handler_never_resets_cooldown :
    (connectedToGCHandler connSample).1.mgr.cooldownLevel = 2 ∧
    (connectedToGCHandler connSample).2 = [] ∧
    (connectedToGCHandler connSample).1.mgr.gcConnectionAttempts = 0 ∧
    (connectedToGCHandler connSample).1.mgr.connectionTimerActive = false ∧
    (connSample.mgr.onGcConnected 999).1.cooldownLevel = 0 ∧
    (connSample.mgr.onGcConnected 999).2 =
      [Effect.persistCooldown ⟨5000, 4, 0⟩] := by
  decide

/-- Claim C3 is violated by the code: the supervisor does schedule the
deferred start at exactly the remaining-time offset, but the restart timer
callback evaluates the undefined identifier loadCooldownState and throws a
ReferenceError before ever reaching startFilterWorker, so the worker loop is
not started when the timer fires. -/
theorem C3_restart_timer_callback_throws :
    checkAndStartFilterService false 1000000 ⟨1000000, 1, 1⟩ =
      SupervisorDecision.scheduleRestart 1800000 ∧
    restartTimerCallback =
      JsCallResult.thrown "ReferenceError: loadCooldownState is not defined" ∧
    restartTimerCallback ≠ JsCallResult.workerStarted := by
  decide

/-- Claim C9 is violated by the code: the wired disconnectedFromGC handler
only clears the processing flag and schedules no recovery, and the wired
steam error handler calls the nonexistent method handleConnectionError and
throws a TypeError; the grace-delayed recovery methods (5s and 10s delays,
guarded by the recovery flag) exist on ConnectionManager but are never
invoked. -/
theorem C9_failure_handlers_never_start_recovery :
    (disconnectedFromGCHandler disconnSample).1.processingActive = false ∧
    (disconnectedFromGCHandler disconnSample).2 = [] ∧
    (disconnectedFromGCHandler disconnSample).1.mgr = disconnSample.mgr ∧
    steamErrorHandler = JsCallResult.thrown
      "TypeError: this.connectionManager.handleConnectionError is not a function" ∧
    (disconnSample.mgr.onGcDisconnected).2 = [Effect.scheduleRecoveryIn 5000] ∧
    (disconnSample.mgr.onSteamError).2 = [Effect.scheduleRecoveryIn 10000] ∧
    (ConnMgr.startRecovery true false 0
      { disconnSample.mgr with recoveryInProgress := true }).2.2 = none := by
  decide

end GCFilter
